import Mathlib

/-
Verification development for the EventQueue library (src/js/event-queue.js).

The JavaScript object EventQueue carries six fields, set up by the
constructor: _queue (staged names), _events (pending names), _completedEvents,
_hasBuilt, _callback and _targetCount.  We embed an instance as a Lean
structure with those six fields plus two observational components that the
JavaScript keeps outside the object:

  * listeners : the number of handlers currently registered on the global
    document for this instance id.  _buildListeners performs
    document.addEventListener(this.id, function (event) ...), adding one
    handler.  _destroyListeners performs document.removeEventListener(this.id)
    WITHOUT the listener argument; per the DOM, removeEventListener removes
    the registration whose type and callback both match, and no registration
    has the callback undefined, so the call removes nothing.  (The test
    environment of this repository, mocha-phantomjs, accepts the one-argument
    call without error; the embedding follows that behaviour: the table is
    left unchanged.)  Note also that the handler passed to addEventListener is
    an anonymous closure that the instance never stores, so no call could
    name it for removal.

  * calls : the log of invocations of this._callback(), oldest first, used to
    state how many times the completion callback fired.

The callback value itself is modelled by CB below: CB.noop is the
function () \x7b\x7d installed by the constructor and by reset; CB.user t is an
arbitrary caller-supplied callback, tagged so distinct ones can be told
apart.

document.dispatchEvent is synchronous in the DOM: it invokes every handler
registered for the event type before returning.  The test suite of this
repository depends on this (it asserts eq._completedEvents.length === 1
immediately after eq.triggerEvent(...) returns), so triggerEvent is embedded
with synchronous delivery: one _pollProgress run per registered handler.

Errors: _failure(msg) first calls _destroyListeners and then throws an
Error whose message is the string "[EventQueue FAILURE]: " ++ msg.
Fallible operations return the resulting state paired with Option String:
none on success, some message on throw.
The specification taxonomy maps the messages to error classes:
InvalidStateError for the "already built", "nothing queued" and "call build
first" messages, LookupError for the "No events found with name" message.
-/

namespace EventQueueSpec

/-- Model of a this._callback value: the no-op installed by the constructor
and by reset, or a caller-supplied callback identified by a tag. -/
inductive CB
  | noop
  | user (tag : Nat)
  deriving Repr, DecidableEq

/-- The state of one EventQueue instance: the six fields of the JavaScript
object, the count of document-level handlers registered for its id, and the
log of callback invocations. -/
structure EventQueue where
  _queue : List String
  _events : List String
  _completedEvents : List String
  _hasBuilt : Bool
  _callback : CB
  _targetCount : Nat
  listeners : Nat
  calls : List CB
  deriving Repr, DecidableEq

/-- The constructor: every field empty or false, no listener registered, no
callback invoked.  (The random id is irrelevant to a single instance and is
not modelled.) -/
def EventQueue.init : EventQueue :=
  { _queue := []
    _events := []
    _completedEvents := []
    _hasBuilt := false
    _callback := CB.noop
    _targetCount := 0
    listeners := 0
    calls := [] }

/-- JavaScript Array.prototype.indexOf: index of the first occurrence, -1 if
absent. -/
def jsIndexOf : List String → String → Int
  | [], _ => -1
  | x :: xs, name =>
      if x == name then 0
      else
        let r := jsIndexOf xs name
        if r == -1 then -1 else r + 1

/-- JavaScript Array.prototype.splice(start, 1): with a negative start the
actual position is max(length + start, 0), with a non-negative start it is
min(start, length); one element is removed at that position (none when the
position is the length).  In particular splice(-1, 1) removes the LAST
element of a non-empty array. -/
def jsSpliceRemoveOne (l : List String) (start : Int) : List String :=
  let actual : Nat :=
    if start < 0 then (max ((l.length : Int) + start) 0).toNat
    else min start.toNat l.length
  l.take actual ++ l.drop (actual + 1)

/-- The middle conjunct of isComplete in the source reads
this._events === 0: a JavaScript strict equality between an Array object and
the number 0.  Strict equality between operands of different types is false,
so this conjunct never holds, whatever the array contains. -/
def eventsStrictEqZero (_events : List String) : Bool :=
  false

/-- isComplete: this._queue.length === 0 && this._events === 0 &&
this._completedEvents.length === this._targetCount, read off the source
verbatim (note the missing .length on the middle conjunct). -/
def isComplete (q : EventQueue) : Bool :=
  q._queue.length == 0 && eventsStrictEqZero q._events
    && (q._completedEvents.length == q._targetCount)

/-- queueEvent(name, count): when count is passed (count !== undefined) the
loop for (i = 0; i < count; i++) pushes name count times, hence
max(count, 0) times for an integer count (a non-positive count stages
nothing); otherwise name is pushed once. -/
def queueEvent (q : EventQueue) (name : String) (count : Option Int) : EventQueue :=
  match count with
  | some c => { q with _queue := q._queue ++ List.replicate c.toNat name }
  | none => { q with _queue := q._queue ++ [name] }

/-- addCallback(callback): replaces this._callback. -/
def addCallback (q : EventQueue) (cb : CB) : EventQueue :=
  { q with _callback := cb }

/-- _buildListeners: document.addEventListener(this.id, handler) — one more
handler registered for this instance id. -/
def _buildListeners (q : EventQueue) : EventQueue :=
  { q with listeners := q.listeners + 1 }

/-- _destroyListeners: document.removeEventListener(this.id) — the listener
argument is omitted, so no registration (whose callback is the anonymous
closure installed by _buildListeners) matches, and the table is unchanged. -/
def _destroyListeners (q : EventQueue) : EventQueue :=
  q

/-- reset: clears the six fields in source order, calls _destroyListeners,
and restores the callback to the no-op. -/
def reset (q : EventQueue) : EventQueue :=
  let q := { q with
    _queue := []
    _events := []
    _completedEvents := []
    _hasBuilt := false
    _targetCount := 0 }
  let q := _destroyListeners q
  { q with _callback := CB.noop }

/-- _failure(msg): calls _destroyListeners, then throws
Error("[EventQueue FAILURE]: " + msg).  The resulting state is paired with
the thrown message. -/
def _failure (q : EventQueue) (msg : String) : EventQueue × Option String :=
  (_destroyListeners q, some ("[EventQueue FAILURE]: " ++ msg))

/-- _pollProgress, the handler run once per delivered signal: splices
this._events at indexOf(name) (removing the first occurrence when present,
and the LAST element when absent, since splice(-1, 1) removes the last
element), appends name to _completedEvents, and on
_completedEvents.length === _targetCount invokes the callback and resets. -/
def _pollProgress (q : EventQueue) (name : String) : EventQueue :=
  let index := jsIndexOf q._events name
  let q := { q with _events := jsSpliceRemoveOne q._events index }
  let q := { q with _completedEvents := q._completedEvents ++ [name] }
  if q._completedEvents.length == q._targetCount then
    let q := { q with calls := q.calls ++ [q._callback] }
    reset q
  else
    q

/-- Runs _pollProgress n times with the same name: one run per handler
invoked by a single dispatch. -/
def deliverN : Nat → EventQueue → String → EventQueue
  | 0, q, _ => q
  | n + 1, q, name => deliverN n (_pollProgress q name) name

/-- document.dispatchEvent(new CustomEvent(this.id, ...)): synchronously
invokes every handler currently registered for this id, each handler being
the closure that forwards to _pollProgress.  (No handler is added or
removed during the dispatch: _destroyListeners removes nothing.) -/
def dispatchEvent (q : EventQueue) (name : String) : EventQueue :=
  deliverN q.listeners q name

/-- triggerEvent(name): if built and name occurs in _events, dispatches the
custom event (delivered synchronously); if built and name is absent, fails
with the lookup message; if not built, fails with the call-build-first
message. -/
def triggerEvent (q : EventQueue) (name : String) : EventQueue × Option String :=
  if q._hasBuilt then
    if jsIndexOf q._events name != -1 then
      (dispatchEvent q name, none)
    else
      _failure q ("No events found with name \"" ++ name ++ "\"")
  else
    _failure q "No event listeners created. Execute build() first."

/-- build(): when not built and the staged queue is non-empty, snapshots
_targetCount := _queue.length, pushes every staged name onto _events in
order (the loop for (i = 0; i < _targetCount; i++) _events.push(_queue[i])
appends _queue wholesale), clears _queue, registers the listener and sets
_hasBuilt; when not built and nothing is staged, fails with the
nothing-queued message; when already built, fails with the already-built
message. -/
def build (q : EventQueue) : EventQueue × Option String :=
  if !q._hasBuilt && q._queue.length > 0 then
    let q := { q with _targetCount := q._queue.length }
    let q := { q with _events := q._events ++ q._queue }
    let q := { q with _queue := [] }
    let q := _buildListeners q
    ({ q with _hasBuilt := true }, none)
  else if !q._hasBuilt && q._queue.length == 0 then
    _failure q "You need to queue events first, use queueEvent(name, count) to add events to the queue first."
  else
    _failure q "Queue already built, cannot build again. Use reset() to start over with the same instance."

/-- _success (dead code in the source: nothing calls it): destroys the
listeners and invokes the callback. -/
def _success (q : EventQueue) : EventQueue :=
  let q := _destroyListeners q
  { q with calls := q.calls ++ [q._callback] }

/-- One public operation on an instance.  isComplete is pure and omitted;
the addCallback argument carries the tag of the supplied callback. -/
inductive Op
  | queueEvent (name : String) (count : Option Int)
  | addCallback (tag : Nat)
  | build
  | triggerEvent (name : String)
  | reset
  deriving Repr, DecidableEq

/-- Applies one public operation; for the fallible operations the state is
the one left behind whether or not an error was thrown (a thrown error
propagates to the caller and leaves the instance as _failure left it). -/
def applyOp (q : EventQueue) : Op → EventQueue
  | Op.queueEvent name count => queueEvent q name count
  | Op.addCallback t => addCallback q (CB.user t)
  | Op.build => (build q).1
  | Op.triggerEvent name => (triggerEvent q name).1
  | Op.reset => reset q

/-- Runs a sequence of public operations from a given state. -/
def runOps (q : EventQueue) (ops : List Op) : EventQueue :=
  ops.foldl applyOp q

/-
Theorems for the claims.
-/

/-- C10: isComplete returns false in every state an instance can reach by
public operations, because its middle conjunct compares the _events array
itself (not its length) with the number 0, which never holds. -/
theorem C10_isComplete_never_true (ops : List Op) :
    isComplete (runOps EventQueue.init ops) = false := by
  simp [isComplete, eventsStrictEqZero]

/-- C4: on a freshly constructed instance the staged queue is empty, the
pending array is empty and the completed count equals targetCount, yet
isComplete returns false -- the source compares the _events array itself
with the number 0 instead of comparing its length, so the intended
completion predicate is never reported. -/
theorem C4_isComplete_false_although_complete :
    EventQueue.init._queue = [] ∧ EventQueue.init._events = [] ∧
    EventQueue.init._completedEvents.length = EventQueue.init._targetCount ∧
    isComplete EventQueue.init = false := by
  decide

/-- C6: queueEvent performs no built-check, so calling it after a
successful build leaves the instance with _hasBuilt = true and a non-empty
staged queue, contradicting the staged-empty-after-build invariant. -/
theorem C6_staged_nonempty_after_build :
    (runOps EventQueue.init
      [Op.queueEvent "a" none, Op.build, Op.queueEvent "b" none])._hasBuilt = true ∧
    (runOps EventQueue.init
      [Op.queueEvent "a" none, Op.build, Op.queueEvent "b" none])._queue = ["b"] := by
  decide

/-- C9: the one-argument removeEventListener call in _destroyListeners
matches no registration, so reset leaves the registration installed by
build active (count 1, not 0), and building again after a reset leaves two
simultaneously active registrations. -/
theorem C9_registration_leak :
    (runOps EventQueue.init
      [Op.queueEvent "a" none, Op.build, Op.reset]).listeners = 1 ∧
    (runOps EventQueue.init
      [Op.queueEvent "a" none, Op.build, Op.reset,
       Op.queueEvent "a" none, Op.build]).listeners = 2 := by
  decide

/-- C3: after a first completed cycle leaks a listener, a rebuilt queue
receives every dispatched signal twice; on the run below the single report
of "a" removes "a" and then, on the duplicated delivery, removes the
unrelated last entry "c" (splice with index -1), leaving pending = ["b"]
and completed = ["a", "a"] although the staged-at-build multiset
["a", "b", "c"] minus completed is the multiset containing "b" and "c". -/
theorem C3_pending_invariant_broken :
    (runOps EventQueue.init
      [Op.queueEvent "a" none, Op.build, Op.triggerEvent "a",
       Op.queueEvent "a" none, Op.queueEvent "b" none, Op.queueEvent "c" none,
       Op.build, Op.triggerEvent "a"])._events = ["b"] ∧
    (runOps EventQueue.init
      [Op.queueEvent "a" none, Op.build, Op.triggerEvent "a",
       Op.queueEvent "a" none, Op.queueEvent "b" none, Op.queueEvent "c" none,
       Op.build, Op.triggerEvent "a"])._completedEvents = ["a", "a"] ∧
    (runOps EventQueue.init
      [Op.queueEvent "a" none, Op.build, Op.triggerEvent "a",
       Op.queueEvent "a" none, Op.queueEvent "b" none, Op.queueEvent "c" none,
       Op.build, Op.triggerEvent "a"])._targetCount = 3 ∧
    (runOps EventQueue.init
      [Op.queueEvent "a" none, Op.build, Op.triggerEvent "a",
       Op.queueEvent "a" none, Op.queueEvent "b" none, Op.queueEvent "c" none,
       Op.build, Op.triggerEvent "a"])._hasBuilt = true := by
  decide

/-- C7: triggerEvent before build throws the call-build-first Error and
leaves the state untouched; triggerEvent on a built instance with an
unknown name throws the no-events-found Error and leaves the state
untouched, but the dispatch registration is NOT torn down: the listener
installed by build stays active (count 1 before and after the failure). -/
theorem C7_failure_keeps_registration :
    (triggerEvent EventQueue.init "a").2
      = some "[EventQueue FAILURE]: No event listeners created. Execute build() first." ∧
    (triggerEvent EventQueue.init "a").1 = EventQueue.init ∧
    (triggerEvent (runOps EventQueue.init [Op.queueEvent "a" none, Op.build]) "b").2
      = some "[EventQueue FAILURE]: No events found with name \"b\"" ∧
    (triggerEvent (runOps EventQueue.init [Op.queueEvent "a" none, Op.build]) "b").1
      = runOps EventQueue.init [Op.queueEvent "a" none, Op.build] ∧
    (runOps EventQueue.init [Op.queueEvent "a" none, Op.build]).listeners = 1 ∧
    (triggerEvent (runOps EventQueue.init [Op.queueEvent "a" none, Op.build]) "b").1.listeners = 1 := by
  decide

/-- C5 counterexample: on a built instance with "a" twice in pending, the
very call triggerEvent("a") already changes _events and _completedEvents
before it returns (dispatchEvent invokes the handlers synchronously), so
the bookkeeping is not deferred to a later delivery. -/
theorem C5_trigger_mutates_synchronously :
    (build (queueEvent EventQueue.init "a" (some 2))).1._hasBuilt = true ∧
    jsIndexOf (build (queueEvent EventQueue.init "a" (some 2))).1._events "a" ≠ -1 ∧
    (triggerEvent (build (queueEvent EventQueue.init "a" (some 2))).1 "a").1._completedEvents
      ≠ (build (queueEvent EventQueue.init "a" (some 2))).1._completedEvents ∧
    (triggerEvent (build (queueEvent EventQueue.init "a" (some 2))).1 "a").1._events
      ≠ (build (queueEvent EventQueue.init "a" (some 2))).1._events := by
  decide

/-- C5 amended: on a built instance carrying exactly one active dispatch
registration, triggerEvent with a name present in pending raises no error
and performs the bookkeeping synchronously: it returns exactly the state
produced by one _pollProgress step (first matching entry removed from
pending, name appended to completed, callback and reset when that fills
targetCount). -/
theorem C5_trigger_delivers_before_returning (q : EventQueue) (name : String)
    (hb : q._hasBuilt = true) (hn : jsIndexOf q._events name ≠ -1)
    (hl : q.listeners = 1) :
    triggerEvent q name = (_pollProgress q name, none) := by
  simp [triggerEvent, hb, bne_iff_ne, hn, dispatchEvent, hl, deliverN]

/-- Witness for C5 amended at a concrete built instance. -/
theorem C5_trigger_delivers_before_returning_witness :
    (build (queueEvent EventQueue.init "a" (some 2))).1._hasBuilt = true ∧
    jsIndexOf (build (queueEvent EventQueue.init "a" (some 2))).1._events "a" ≠ -1 ∧
    (build (queueEvent EventQueue.init "a" (some 2))).1.listeners = 1 ∧
    triggerEvent (build (queueEvent EventQueue.init "a" (some 2))).1 "a"
      = (_pollProgress (build (queueEvent EventQueue.init "a" (some 2))).1 "a", none) :=
  ⟨by decide, by decide, by decide,
    C5_trigger_delivers_before_returning _ "a" (by decide) (by decide) (by decide)⟩

/-- C1: staging one name once, registering a callback, building and then
reporting that name once invokes the registered callback exactly once and
leaves all six fields of the instance as the constructor set them: staged,
pending and completed empty, targetCount 0, built false, callback the
no-op. -/
theorem C1_single_event_roundtrip (name : String) (t : Nat) :
    (build (queueEvent (addCallback EventQueue.init (CB.user t)) name (some 1))).2 = none ∧
    (triggerEvent (build (queueEvent (addCallback EventQueue.init (CB.user t)) name (some 1))).1 name).2 = none ∧
    (triggerEvent (build (queueEvent (addCallback EventQueue.init (CB.user t)) name (some 1))).1 name).1.calls
      = [CB.user t] ∧
    (triggerEvent (build (queueEvent (addCallback EventQueue.init (CB.user t)) name (some 1))).1 name).1._queue = [] ∧
    (triggerEvent (build (queueEvent (addCallback EventQueue.init (CB.user t)) name (some 1))).1 name).1._events = [] ∧
    (triggerEvent (build (queueEvent (addCallback EventQueue.init (CB.user t)) name (some 1))).1 name).1._completedEvents = [] ∧
    (triggerEvent (build (queueEvent (addCallback EventQueue.init (CB.user t)) name (some 1))).1 name).1._targetCount = 0 ∧
    (triggerEvent (build (queueEvent (addCallback EventQueue.init (CB.user t)) name (some 1))).1 name).1._hasBuilt = false ∧
    (triggerEvent (build (queueEvent (addCallback EventQueue.init (CB.user t)) name (some 1))).1 name).1._callback = CB.noop := by
  simp [build, queueEvent, addCallback, EventQueue.init, triggerEvent, jsIndexOf,
    dispatchEvent, deliverN, _pollProgress, jsSpliceRemoveOne, reset,
    _destroyListeners, _buildListeners, _failure]

/-- C8: build fails, leaving the state entirely unchanged, exactly when
the instance is already built (already-built message) or when nothing is
staged (nothing-queued message); in particular a second build immediately
after a successful one fails with the already-built message and preserves
the state the first build established. -/
theorem C8_build_error_cases (q : EventQueue) :
    ((build q).2 ≠ none ↔ (q._hasBuilt = true ∨ q._queue = [])) ∧
    (q._hasBuilt = true →
      build q = (q, some "[EventQueue FAILURE]: Queue already built, cannot build again. Use reset() to start over with the same instance.")) ∧
    (q._hasBuilt = false → q._queue = [] →
      build q = (q, some "[EventQueue FAILURE]: You need to queue events first, use queueEvent(name, count) to add events to the queue first.")) ∧
    ((build q).2 = none →
      build (build q).1 = ((build q).1, some "[EventQueue FAILURE]: Queue already built, cannot build again. Use reset() to start over with the same instance.")) := by
  cases hb : q._hasBuilt with
  | true => simp [build, hb, _failure, _destroyListeners]
  | false =>
      cases hq : q._queue with
      | nil => simp [build, hb, hq, _failure, _destroyListeners]
      | cons x xs => simp [build, hb, hq, _failure, _destroyListeners, _buildListeners]

/-- Witness for C8: the second build after a successful one, and build on a
fresh instance, both fail with the stated messages and states. -/
theorem C8_build_error_cases_witness :
    build (build (queueEvent EventQueue.init "a" none)).1
      = ((build (queueEvent EventQueue.init "a" none)).1,
         some "[EventQueue FAILURE]: Queue already built, cannot build again. Use reset() to start over with the same instance.") ∧
    build EventQueue.init
      = (EventQueue.init,
         some "[EventQueue FAILURE]: You need to queue events first, use queueEvent(name, count) to add events to the queue first.") :=
  ⟨(C8_build_error_cases (build (queueEvent EventQueue.init "a" none)).1).2.1 (by decide),
   (C8_build_error_cases EventQueue.init).2.2.1 (by decide) (by decide)⟩

/-
Bookkeeping functions for C2: the effect of a sequence of queueEvent calls,
each call being a name with an optional integer count.
-/

/-- Number of copies one queueEvent call stages: the count clamped to zero
when passed (the loop runs max(count, 0) times), one when omitted. -/
def contrib : Option Int → Nat
  | some c => c.toNat
  | none => 1

/-- The names one queueEvent(name, count) call appends to _queue. -/
def stagedOne (p : String × Option Int) : List String :=
  match p.2 with
  | some c => List.replicate c.toNat p.1
  | none => [p.1]

/-- All names staged by a sequence of queueEvent calls, in call order. -/
def stagedNames : List (String × Option Int) → List String
  | [] => []
  | p :: rest => stagedOne p ++ stagedNames rest

/-- Sum of the contributions of a sequence of queueEvent calls. -/
def sumContrib : List (String × Option Int) → Nat
  | [] => 0
  | p :: rest => contrib p.2 + sumContrib rest

/-- Total number of copies of one name staged by a sequence of queueEvent
calls. -/
def totalCount : List (String × Option Int) → String → Nat
  | [], _ => 0
  | p :: rest, name => (if p.1 = name then contrib p.2 else 0) + totalCount rest name

/-- Performs a sequence of queueEvent calls. -/
def runQueueCalls (q : EventQueue) : List (String × Option Int) → EventQueue
  | [] => q
  | p :: rest => runQueueCalls (queueEvent q p.1 p.2) rest

theorem stagedOne_length (p : String × Option Int) :
    (stagedOne p).length = contrib p.2 := by
  cases h : p.2 <;> simp [stagedOne, contrib, h]

theorem stagedNames_length (calls : List (String × Option Int)) :
    (stagedNames calls).length = sumContrib calls := by
  induction calls with
  | nil => simp [stagedNames, sumContrib]
  | cons p rest ih => simp [stagedNames, sumContrib, stagedOne_length, ih]

theorem stagedOne_count (p : String × Option Int) (name : String) :
    (stagedOne p).count name = if p.1 = name then contrib p.2 else 0 := by
  cases h : p.2 <;>
    simp [stagedOne, contrib, h, List.count_replicate, List.count_singleton, beq_iff_eq]

theorem stagedNames_count (calls : List (String × Option Int)) (name : String) :
    (stagedNames calls).count name = totalCount calls name := by
  induction calls with
  | nil => simp [stagedNames, totalCount]
  | cons p rest ih => simp [stagedNames, totalCount, List.count_append, stagedOne_count, ih]

theorem runQueueCalls_queue (calls : List (String × Option Int)) :
    ∀ q : EventQueue, (runQueueCalls q calls)._queue = q._queue ++ stagedNames calls := by
  induction calls with
  | nil => intro q; simp [runQueueCalls, stagedNames]
  | cons p rest ih =>
      intro q
      rw [runQueueCalls, ih]
      cases h : p.2 <;> simp [queueEvent, stagedNames, stagedOne, h]

theorem runQueueCalls_events (calls : List (String × Option Int)) :
    ∀ q : EventQueue, (runQueueCalls q calls)._events = q._events := by
  induction calls with
  | nil => intro q; simp [runQueueCalls]
  | cons p rest ih =>
      intro q
      rw [runQueueCalls, ih]
      cases h : p.2 <;> simp [queueEvent, h]

theorem runQueueCalls_hasBuilt (calls : List (String × Option Int)) :
    ∀ q : EventQueue, (runQueueCalls q calls)._hasBuilt = q._hasBuilt := by
  induction calls with
  | nil => intro q; simp [runQueueCalls]
  | cons p rest ih =>
      intro q
      rw [runQueueCalls, ih]
      cases h : p.2 <;> simp [queueEvent, h]

/-- C2: after any sequence of queueEvent calls on a fresh instance whose
clamped counts sum to a positive total, build succeeds, targetCount equals
that sum (an omitted count contributing one, a non-positive count staging
nothing), pending holds exactly the staged names (so each name occurs
exactly its total staged count many times) and the staged queue is left
empty. -/
theorem C2_build_snapshot (calls : List (String × Option Int))
    (h : 0 < sumContrib calls) :
    (build (runQueueCalls EventQueue.init calls)).2 = none ∧
    (build (runQueueCalls EventQueue.init calls)).1._targetCount = sumContrib calls ∧
    (build (runQueueCalls EventQueue.init calls)).1._queue = [] ∧
    (build (runQueueCalls EventQueue.init calls)).1._events = stagedNames calls ∧
    ∀ name, ((build (runQueueCalls EventQueue.init calls)).1._events).count name
      = totalCount calls name := by
  have hq : (runQueueCalls EventQueue.init calls)._queue = stagedNames calls := by
    simpa [EventQueue.init] using runQueueCalls_queue calls EventQueue.init
  have he : (runQueueCalls EventQueue.init calls)._events = [] := by
    simpa [EventQueue.init] using runQueueCalls_events calls EventQueue.init
  have hb : (runQueueCalls EventQueue.init calls)._hasBuilt = false := by
    simpa [EventQueue.init] using runQueueCalls_hasBuilt calls EventQueue.init
  have hlen : (runQueueCalls EventQueue.init calls)._queue.length = sumContrib calls := by
    rw [hq, stagedNames_length]
  have hpos : 0 < (stagedNames calls).length := by
    rw [stagedNames_length]; exact h
  refine ⟨?_, ?_, ?_, ?_, ?_⟩ <;>
    simp [build, hb, hq, he, _buildListeners, h, hpos, stagedNames_length, stagedNames_count]

/-- Witness for C2 at a concrete call sequence exercising an explicit
count, an omitted count and a negative count. -/
theorem C2_build_snapshot_witness :
    0 < sumContrib [("a", some 2), ("b", none), ("c", some (-3))] ∧
    ((build (runQueueCalls EventQueue.init [("a", some 2), ("b", none), ("c", some (-3))])).2 = none ∧
     (build (runQueueCalls EventQueue.init [("a", some 2), ("b", none), ("c", some (-3))])).1._targetCount
       = sumContrib [("a", some 2), ("b", none), ("c", some (-3))] ∧
     (build (runQueueCalls EventQueue.init [("a", some 2), ("b", none), ("c", some (-3))])).1._queue = [] ∧
     (build (runQueueCalls EventQueue.init [("a", some 2), ("b", none), ("c", some (-3))])).1._events
       = stagedNames [("a", some 2), ("b", none), ("c", some (-3))] ∧
     ∀ name, ((build (runQueueCalls EventQueue.init [("a", some 2), ("b", none), ("c", some (-3))])).1._events).count name
       = totalCount [("a", some 2), ("b", none), ("c", some (-3))] name) :=
  ⟨by decide, C2_build_snapshot [("a", some 2), ("b", none), ("c", some (-3))] (by decide)⟩

end EventQueueSpec
